import Mathlib

set_option maxRecDepth 100000

/-!
Verification of the ATLAS request-validation, prompt-construction and
response-normalization pipeline.

Strings from the TypeScript source are modelled as `List Char` (`Str`);
JavaScript numbers used for coordinates are modelled as exact rationals,
and integer-valued fields (such as `orderIndex`) as `Int`.  External
runtime facilities (locale-dependent date rendering) are taken as
explicit function parameters, so every theorem quantifies over them.
-/

namespace Atlas

/-- Character-list model of JavaScript strings. -/
abbrev Str := List Char

/-- Coerce a Lean string literal into the `Str` model. -/
def chars (s : String) : Str := s.data

/-- Decimal rendering of an integer, as JavaScript renders integer numbers. -/
def intToChars (n : Int) : Str := (toString n).data

/-- Characters matched by the JavaScript regex class `\s` and removed by
`String.prototype.trim` (the common subset; exotic unicode spaces that the
source never produces are omitted). -/
def isJsWs (c : Char) : Bool :=
  c = ' ' || c = '\t' || c = '\n' || c = '\r' || c = '\x0b' || c = '\x0c' ||
  c = '\u00a0' || c = '\u2028' || c = '\u2029' || c = '\ufeff'

/-- Boolean prefix test on character lists. -/
def isPrefixChars : Str → Str → Bool
  | [], _ => true
  | _ :: _, [] => false
  | a :: as, b :: bs => a == b && isPrefixChars as bs

/-- Model of `String.prototype.startsWith`. -/
def startsWithChars (pre s : Str) : Bool := isPrefixChars pre s

/-- Boolean suffix test on character lists. -/
def endsWithChars (suf s : Str) : Bool := isPrefixChars suf.reverse s.reverse

/-- Model of `String.prototype.trim`: drop leading and trailing whitespace. -/
def trimStr (s : Str) : Str :=
  ((s.dropWhile isJsWs).reverse.dropWhile isJsWs).reverse

/-- Drop trailing whitespace only. -/
def dropTrailingWs (s : Str) : Str := (s.reverse.dropWhile isJsWs).reverse

/-- Drop the last `n` characters. -/
def dropRightChars (s : Str) (n : Nat) : Str := s.take (s.length - n)

/-- Model of `Number.prototype.toFixed(4)` on an exact rational: round the
magnitude to four decimal places (half away from zero) and render with the
sign, integer part, a dot and exactly four fractional digits.  Binary
floating-point rounding artifacts of the JavaScript runtime are out of
scope; no claim depends on the rendered digits. -/
def toFixed4 (q : ℚ) : Str :=
  let neg := q < 0
  let a : ℚ := if neg then -q else q
  let scaled : ℤ := (20000 * a.num + (a.den : ℤ)) / (2 * (a.den : ℤ))
  let ip := scaled / 10000
  let fp := (scaled % 10000).toNat
  let fpStr := (toString fp).data
  (if neg then chars "-" else []) ++ (toString ip).data ++ chars "." ++
    List.replicate (4 - fpStr.length) '0' ++ fpStr

/-! ## Data model (src/lib/utils/validation.ts, src/lib/workflow types) -/

/-- `ImageMetadata` from src/lib/utils/validation.ts: optional capture facts. -/
structure ImageMetadata where
  takenAt : Option Str
  latitude : Option ℚ
  longitude : Option ℚ
  device : Option Str
  deriving DecidableEq, Repr

/-- `ImageUpload` from src/lib/utils/validation.ts. -/
structure ImageUpload where
  orderIndex : Int
  base64 : Str
  metadata : Option ImageMetadata
  deriving DecidableEq, Repr

/-- `ValidatedCaption` from src/lib/utils/validation.ts. -/
structure ValidatedCaption where
  orderIndex : Int
  text : Str
  deriving DecidableEq, Repr

/-- JavaScript truthiness of an optional string: present and non-empty. -/
def strTruthy : Option Str → Bool
  | none => false
  | some s => !s.isEmpty

/-- JavaScript truthiness of an optional number: present and non-zero
(NaN, which is also falsy, is not modelled). -/
def numTruthy : Option ℚ → Bool
  | none => false
  | some q => q != 0

/-! ## Story prompt builder (src/lib/prompts/story.ts) -/

/-- The `STORY_SYSTEM` constant from src/lib/prompts/story.ts, verbatim. -/
def STORY_SYSTEM : Str := chars
  "You are a master storyteller creating vivid, engaging narratives from photo sequences.\n\nSTORYTELLING PRINCIPLES:\n- Weave photos into a cohesive, chronological story\n- Use rich, descriptive language that brings scenes to life\n- Incorporate location and temporal context naturally\n- Create emotional connections between moments\n- Maintain consistent tone and pacing\n- Reference specific details from captions and metadata\n\nCRITICAL OUTPUT REQUIREMENT:\nReturn ONLY raw JSON - no markdown, no code fences, no explanations.\nDo NOT wrap the JSON in ```json or ``` markers.\nStart your response with \x7b and end with \x7d\n\nOUTPUT FORMAT:\n\x7b\"pages\":[\x7b\"orderIndex\":1,\"narrativeText\":\"Story text here...\"\x7d]\x7d"

/-- JavaScript `a || b` on an optional string value. -/
def jsOrStr : Option Str → Str → Str
  | none, d => d
  | some s, d => if s.isEmpty then d else s

/-- `buildMetadataContext` from src/lib/prompts/story.ts.  The source tests
each field with JavaScript truthiness (`if (metadata.takenAt)` and
`if (metadata.latitude && metadata.longitude)`), so an empty string or the
number 0 counts as absent.  The locale-dependent
`new Date(takenAt).toLocaleDateString()` rendering is the parameter
`fmtDate`.  `metadataParts` is the `parts` accumulator of the source. -/
def metadataParts (fmtDate : Str → Str) (m : ImageMetadata) : List Str :=
  (if strTruthy m.takenAt then
    [chars "taken " ++ fmtDate (m.takenAt.getD [])] else [])
  ++ (if numTruthy m.latitude && numTruthy m.longitude then
    [chars "at coordinates " ++ toFixed4 (m.latitude.getD 0) ++ chars ", " ++
      toFixed4 (m.longitude.getD 0)] else [])
  ++ (if strTruthy m.device then
    [chars "captured with " ++ m.device.getD []] else [])

/-- The return of `buildMetadataContext`: wrap the accumulated parts in
parentheses when at least one is present, else the empty string. -/
def buildMetadataContext (fmtDate : Str → Str) (metadata : Option ImageMetadata) : Str :=
  match metadata with
  | none => []
  | some m =>
    if (metadataParts fmtDate m).length > 0 then
      chars " (" ++ List.intercalate (chars ", ") (metadataParts fmtDate m) ++ chars ")"
    else []

/-- `buildGlobalContext` from src/lib/prompts/story.ts.  The record
`answers` is modelled as an association list in insertion order; the
destructuring `const \x7b purpose, mood, ...other \x7d = answers` becomes a
lookup of the two well-known keys and a filter for the rest. -/
def buildGlobalContext (answers : List (Str × Str)) : Str :=
  let purpose := (answers.find? (fun kv => kv.1 == chars "purpose")).map Prod.snd
  let mood := (answers.find? (fun kv => kv.1 == chars "mood")).map Prod.snd
  let other := answers.filter
    (fun kv => !(kv.1 == chars "purpose") && !(kv.1 == chars "mood"))
  chars "Event: " ++ jsOrStr purpose (chars "Special occasion") ++
  chars "\nMood: " ++ jsOrStr mood (chars "Joyful and memorable") ++
  chars "\nAdditional details: " ++
  List.intercalate (chars ", ") (other.map (fun kv => kv.1 ++ chars ": " ++ kv.2))

/-- One photo block of the story prompt: the body of the `images.map`
callback in `buildStoryPrompt` (src/lib/prompts/story.ts lines 77-84).
The caption lookup `contexts.find(...)?.text || ""` yields the empty
string both when no context matches and when the matched text is empty. -/
def renderPhoto (fmtDate : Str → Str) (contexts : List ValidatedCaption)
    (img : ImageUpload) : Str :=
  let caption :=
    ((contexts.find? (fun c => c.orderIndex == img.orderIndex)).map
      ValidatedCaption.text).getD []
  let metadataContext := buildMetadataContext fmtDate img.metadata
  chars "Photo " ++ intToChars img.orderIndex ++ chars ": " ++ caption ++
    metadataContext ++ chars "\n<image>" ++ img.base64 ++ chars "</image>"

/-- `buildStoryPrompt` from src/lib/prompts/story.ts: the system preamble,
the global-context block and the photo blocks in the order the `images`
array lists them (the source iterates `images.map(...)` directly, with no
sort). -/
def buildStoryPrompt (fmtDate : Str → Str) (images : List ImageUpload)
    (contexts : List ValidatedCaption) (globalAnswers : List (Str × Str)) : Str :=
  STORY_SYSTEM ++ chars "\n\nGLOBAL CONTEXT:\n" ++ buildGlobalContext globalAnswers ++
    chars "\n\nPHOTO SEQUENCE:\n" ++
    List.intercalate (chars "\n\n") (images.map (renderPhoto fmtDate contexts)) ++
    chars "\n\nCreate the story:"

/-- A date formatter instance used by concrete counterexamples; the
counterexamples never exercise it (their metadata is absent). -/
def fmtDateId : Str → Str := fun s => s

def imgA : ImageUpload := ⟨1, chars "AAA", none⟩

def imgB : ImageUpload := ⟨2, chars "BBB", none⟩

/-- C1 counterexample: swapping the two images of a valid request is a
permutation of the `images` array, yet `buildStoryPrompt` returns a
different string, because the source renders photo blocks in input array
order and never sorts by `orderIndex`. -/
theorem buildStoryPrompt_not_perm_invariant :
    ([imgB, imgA].Perm [imgA, imgB]) ∧
    buildStoryPrompt fmtDateId [imgA, imgB] [] [] ≠
      buildStoryPrompt fmtDateId [imgB, imgA] [] [] := by
  constructor
  · exact List.Perm.swap imgA imgB []
  · decide

/-- C1 amended: `buildStoryPrompt` renders photo blocks in the order the
input `images` array lists them (the prompt is the fixed frame around
`images.map (renderPhoto ...)` joined in input order), so permuting the
`images` array applies the same permutation to the rendered photo blocks
rather than leaving the output unchanged. -/
theorem buildStoryPrompt_follows_input_order
    (fmtDate : Str → Str) (contexts : List ValidatedCaption)
    (ga : List (Str × Str)) (imgs1 imgs2 : List ImageUpload)
    (h : imgs1.Perm imgs2) :
    buildStoryPrompt fmtDate imgs1 contexts ga =
      STORY_SYSTEM ++ chars "\n\nGLOBAL CONTEXT:\n" ++ buildGlobalContext ga ++
      chars "\n\nPHOTO SEQUENCE:\n" ++
      List.intercalate (chars "\n\n") (imgs1.map (renderPhoto fmtDate contexts)) ++
      chars "\n\nCreate the story:" ∧
    (imgs1.map (renderPhoto fmtDate contexts)).Perm
      (imgs2.map (renderPhoto fmtDate contexts)) := by
  exact ⟨rfl, h.map _⟩

/-- C1 amended witness at a concrete permutation. -/
theorem buildStoryPrompt_follows_input_order_witness :
    (([imgA, imgB].map (renderPhoto fmtDateId [])).Perm
      ([imgB, imgA].map (renderPhoto fmtDateId []))) :=
  (buildStoryPrompt_follows_input_order fmtDateId [] [] [imgA, imgB] [imgB, imgA]
    (List.Perm.swap imgB imgA [])).2

/-! ## Validation layer (src/lib/utils/validation.ts, zod schemas)

Numeric fields are modelled at the type level as `Int` / `ℚ`, so the zod
`.int()` refinement (rejecting fractional numbers) is absorbed by the
model; all other checks are translated clause for clause. -/

/-- `ImageMetadataSchema`: each field optional, each coordinate checked
against its range independently; the schema has no cross-field
refinement. -/
def imageMetadataValid (m : ImageMetadata) : Bool :=
  (match m.latitude with
    | none => true
    | some q => decide (-90 ≤ q) && decide (q ≤ 90)) &&
  (match m.longitude with
    | none => true
    | some q => decide (-180 ≤ q) && decide (q ≤ 180))

/-- `ImageUploadSchema`: positive integer `orderIndex`, `base64` is a bare
`z.string()` with no further constraint, optional metadata. -/
def imageUploadValid (u : ImageUpload) : Bool :=
  decide (0 < u.orderIndex) &&
  (match u.metadata with
    | none => true
    | some m => imageMetadataValid m)

/-- `ValidatedCaptionSchema`: positive integer `orderIndex`, text length
between 1 and 2000. -/
def validatedCaptionValid (c : ValidatedCaption) : Bool :=
  decide (0 < c.orderIndex) && decide (1 ≤ c.text.length) &&
    decide (c.text.length ≤ 2000)

/-- Wire-level story request (`StoryRequest` in src/lib/utils/validation.ts);
`globalAnswers` is an open string record, modelled as an association list. -/
structure StoryRequest where
  images : List ImageUpload
  contexts : List ValidatedCaption
  globalAnswers : List (Str × Str)
  deriving DecidableEq, Repr

/-- `StoryRequestSchema`: images 1..15 each valid, contexts 1..15 each
valid, `globalAnswers` a string record with no required keys. -/
def storyRequestValid (r : StoryRequest) : Bool :=
  decide (1 ≤ r.images.length) && decide (r.images.length ≤ 15) &&
    r.images.all imageUploadValid &&
  decide (1 ≤ r.contexts.length) && decide (r.contexts.length ≤ 15) &&
    r.contexts.all validatedCaptionValid

/-- A story request whose single encoded image lacks any recognized
image-format prefix. -/
def reqNoPrefix : StoryRequest :=
  ⟨[⟨1, chars "notanimage", none⟩], [⟨1, chars "a dog on a beach"⟩],
    [(chars "purpose", chars "p"), (chars "mood", chars "m")]⟩

/-- C2 counterexample: `StoryRequestSchema` validates `base64` only as a
bare string, so a request whose encoded image does not carry the
repository's recognized embedded-image prefix (`data:image/`, the pattern
the image pipeline checks) is still accepted. -/
theorem storyRequestSchema_accepts_bad_prefix :
    storyRequestValid reqNoPrefix = true ∧
    startsWithChars (chars "data:image/")
      ((reqNoPrefix.images.headD ⟨0, [], none⟩).base64) = false := by
  decide

/-- C2 amended: the schema rejects an empty images array, 16 or more
images, a non-positive `orderIndex`, and a caption text of length 0 or
above 2000; the encoded image string itself is not inspected (no
image-format prefix check exists in `StoryRequestSchema`). -/
theorem storyRequestSchema_rejections (r : StoryRequest)
    (h : r.images = [] ∨ 16 ≤ r.images.length ∨
      (∃ u ∈ r.images, u.orderIndex ≤ 0) ∨
      (∃ c ∈ r.contexts, c.text.length = 0 ∨ 2000 < c.text.length)) :
    storyRequestValid r = false := by
  rw [Bool.eq_false_iff]
  intro hvalid
  simp only [storyRequestValid, Bool.and_eq_true, decide_eq_true_eq,
    List.all_eq_true] at hvalid
  obtain ⟨⟨⟨⟨⟨h1, h2⟩, h3⟩, _h4⟩, _h5⟩, h6⟩ := hvalid
  rcases h with h | h | ⟨u, hu, hle⟩ | ⟨c, hc, hlen⟩
  · rw [h] at h1; simp at h1
  · omega
  · have := h3 u hu
    simp only [imageUploadValid, Bool.and_eq_true, decide_eq_true_eq] at this
    omega
  · have := h6 c hc
    simp only [validatedCaptionValid, Bool.and_eq_true, decide_eq_true_eq] at this
    omega

/-- C2 amended witness: the empty-images request is rejected. -/
theorem storyRequestSchema_rejections_witness :
    storyRequestValid ⟨[], [⟨1, chars "x"⟩], []⟩ = false :=
  storyRequestSchema_rejections ⟨[], [⟨1, chars "x"⟩], []⟩ (Or.inl rfl)

/-- C10 counterexample: `ImageMetadataSchema` has no paired-presence
refinement, so metadata carrying a latitude but no longitude passes
validation. -/
theorem imageMetadataSchema_accepts_lone_latitude :
    imageMetadataValid ⟨none, some 10, none, none⟩ = true ∧
    (ImageMetadata.mk none (some 10) none none).latitude.isSome = true ∧
    (ImageMetadata.mk none (some 10) none none).longitude = none ∧
    imageUploadValid ⟨1, chars "data:image/jpeg;base64,AA",
      some ⟨none, some 10, none, none⟩⟩ = true := by
  decide

/-- C10 amended: each coordinate is validated independently against its
own range; metadata with exactly one coordinate in range is accepted, so
the paired-or-absent invariant is not enforced by the schema. -/
theorem imageMetadataSchema_coordinates_independent (lat lng : ℚ) :
    (-90 ≤ lat → lat ≤ 90 →
      imageMetadataValid ⟨none, some lat, none, none⟩ = true) ∧
    (-180 ≤ lng → lng ≤ 180 →
      imageMetadataValid ⟨none, none, some lng, none⟩ = true) := by
  constructor
  · intro h1 h2
    simp [imageMetadataValid, h1, h2]
  · intro h1 h2
    simp [imageMetadataValid, h1, h2]

/-- C10 amended witness at concrete in-range coordinates. -/
theorem imageMetadataSchema_coordinates_independent_witness :
    imageMetadataValid ⟨none, some 45, none, none⟩ = true ∧
    imageMetadataValid ⟨none, none, some 100, none⟩ = true :=
  ⟨(imageMetadataSchema_coordinates_independent 45 100).1 (by norm_num) (by norm_num),
   (imageMetadataSchema_coordinates_independent 45 100).2 (by norm_num) (by norm_num)⟩

/-! ## Workflow orchestrator (AtlasWorkflow, src/lib/workflow) -/

/-- `ProcessedImage` from the image pipeline.  The browser `File` handle
carried by the source record has no observable role in the orchestrator
and is not modelled. -/
structure ProcessedImage where
  orderIndex : Int
  base64 : Str
  metadata : Option ImageMetadata
  deriving DecidableEq, Repr

/-- `CaptionResponse` from src/lib/utils/validation.ts. -/
structure CaptionResponse where
  orderIndex : Int
  caption : Str
  deriving DecidableEq, Repr

/-- One page of the story response. -/
structure PageRecord where
  orderIndex : Int
  narrativeText : Str
  title : Option Str
  audioUrl : Option Str
  deriving DecidableEq, Repr

/-- `StoryResponse` from src/lib/utils/validation.ts. -/
structure StoryResponse where
  pages : List PageRecord
  deriving DecidableEq, Repr

/-- `GlobalAnswers`: the two required keys plus arbitrary extra entries. -/
structure GlobalAnswers where
  purpose : Str
  mood : Str
  extra : List (Str × Str)
  deriving DecidableEq, Repr

/-- Spread of a `GlobalAnswers` object into an open string record. -/
def GlobalAnswers.toRecord (g : GlobalAnswers) : List (Str × Str) :=
  (chars "purpose", g.purpose) :: (chars "mood", g.mood) :: g.extra

/-- `validateProcessedImages` from the image pipeline: bounds on the image
count, then per image a non-emptiness check and the recognized
embedded-image prefix check on `base64`.  Returns the `valid` flag and the
error list. -/
def validateProcessedImages (images : List ProcessedImage) : Bool × List Str :=
  let errors : List Str :=
    (if images.length = 0 then [chars "No images provided"] else []) ++
    (if images.length > 15 then [chars "Maximum 15 images allowed"] else []) ++
    (images.enum.flatMap (fun ie =>
      (if ie.2.base64.isEmpty then
        [chars "Image " ++ intToChars ((ie.1 : Int) + 1) ++
          chars ": Missing base64 data"] else []) ++
      (if !(startsWithChars (chars "data:image/") ie.2.base64) then
        [chars "Image " ++ intToChars ((ie.1 : Int) + 1) ++
          chars ": Invalid base64 format"] else [])))
  (errors.isEmpty, errors)

/-- `progress` sub-record of `WorkflowState`. -/
structure Progress where
  imagesProcessed : Nat
  totalImages : Nat
  captionsGenerated : Nat
  deriving DecidableEq, Repr

/-- `WorkflowState` owned by `AtlasWorkflow`. -/
structure WorkflowState where
  images : List ProcessedImage
  captions : List ValidatedCaption
  globalAnswers : GlobalAnswers
  story : Option StoryResponse
  isProcessing : Bool
  isGeneratingCaptions : Bool
  isGeneratingStory : Bool
  error : Option Str
  progress : Progress
  deriving DecidableEq, Repr

/-- The initial workflow state (`AtlasWorkflow` constructor / `reset()`). -/
def initialState : WorkflowState :=
  ⟨[], [], ⟨[], [], []⟩, none, false, false, false, none, ⟨0, 0, 0⟩⟩

/-- A JavaScript exception as the orchestrator catch blocks classify it:
an `AtlasAPIError`, a generic `Error` carrying its message, or a thrown
value that is not an `Error` at all. -/
inductive ThrownError where
  | api (msg : Str)
  | err (msg : Str)
  | other
  deriving DecidableEq, Repr

/-- Error message recorded by the catch block of `generateCaptions`. -/
def captionFailMsg : ThrownError → Str
  | .api m => chars "Caption generation failed: " ++ m
  | .err m => m
  | .other => chars "Failed to generate captions"

/-- Error message recorded by the catch block of `generateStory`. -/
def storyFailMsg : ThrownError → Str
  | .api m => chars "Story generation failed: " ++ m
  | .err m => m
  | .other => chars "Failed to generate story"

/-- Observable outcome of one phase-method call: the final state, the
returned or thrown result, how many outbound gateway requests were issued,
and how many times subscribers were notified. -/
structure PhaseOutcome where
  state : WorkflowState
  result : Except Str Unit
  gatewayCalls : Nat
  notifyCount : Nat
  deriving Repr

/-- The story request `generateStory` assembles from the current state
(the flag mutations performed just before do not touch the fields read
here). -/
def mkStoryRequest (s : WorkflowState) : StoryRequest :=
  ⟨s.images.map (fun i => ⟨i.orderIndex, i.base64, i.metadata⟩),
    s.captions, s.globalAnswers.toRecord⟩

/-- `AtlasWorkflow.generateStory`: three precondition throws before any
state change or gateway call; otherwise set the flag, notify, issue exactly
one story request, record the result or the failure message, and in a
`finally` step clear the flag and notify again. -/
def generateStory (s : WorkflowState)
    (gateway : StoryRequest → Except ThrownError StoryResponse) : PhaseOutcome :=
  if s.images.length = 0 then
    ⟨s, .error (chars "No images for story generation"), 0, 0⟩
  else if s.captions.length = 0 then
    ⟨s, .error (chars "No captions available for story generation"), 0, 0⟩
  else if s.globalAnswers.purpose.isEmpty || s.globalAnswers.mood.isEmpty then
    ⟨s, .error (chars "Global context (purpose and mood) is required"), 0, 0⟩
  else
    match gateway (mkStoryRequest s) with
    | .ok story =>
      ⟨{ s with isGeneratingStory := false, error := none, story := some story },
        .ok (), 1, 2⟩
    | .error e =>
      ⟨{ s with isGeneratingStory := false, error := some (storyFailMsg e) },
        .error (storyFailMsg e), 1, 2⟩

/-- `AtlasWorkflow.generateCaptions`: a precondition throw on zero images
before any state change or request; otherwise set the flag, notify, issue
one caption request per image (fan-out joined all-or-nothing), store the
results or the failure message, clear the flag and notify again. -/
def generateCaptions (s : WorkflowState)
    (gateway : List ImageUpload → Except ThrownError (List CaptionResponse)) :
    PhaseOutcome :=
  if s.images.length = 0 then
    ⟨s, .error (chars "No images to generate captions for"), 0, 0⟩
  else
    match gateway (s.images.map (fun img => ⟨img.orderIndex, img.base64, img.metadata⟩)) with
    | .ok rs =>
      ⟨{ s with isGeneratingCaptions := false, error := none, captions := rs.map (fun r => ⟨r.orderIndex, r.caption⟩), progress := { s.progress with captionsGenerated := (rs.map (fun r => (⟨r.orderIndex, r.caption⟩ : ValidatedCaption))).length } },
        .ok (), s.images.length, 2⟩
    | .error e =>
      ⟨{ s with isGeneratingCaptions := false, error := some (captionFailMsg e), progress := { s.progress with captionsGenerated := 0 } },
        .error (captionFailMsg e), s.images.length, 2⟩

/-- `AtlasWorkflow.processFiles`: count-bound throws before any state
change; otherwise set the flag, notify, run the external per-file
collaborator (`proc` is its result, `progressEvents` the number of progress
callbacks it fired, each of which notified subscribers), validate the
resulting image set, and in a `finally` step clear the flag and notify. -/
def processFiles (s : WorkflowState) (filesCount : Nat)
    (proc : Except Str (List ProcessedImage)) (progressEvents : Nat) :
    PhaseOutcome :=
  if filesCount = 0 then ⟨s, .error (chars "No files provided"), 0, 0⟩
  else if filesCount > 15 then ⟨s, .error (chars "Maximum 15 images allowed"), 0, 0⟩
  else
    match proc with
    | .ok imgs =>
      if (validateProcessedImages imgs).1 then
        ⟨{ s with isProcessing := false, error := none, images := imgs, progress := ⟨progressEvents, filesCount, s.progress.captionsGenerated⟩ },
          .ok (), 0, 1 + progressEvents + 1⟩
      else
        ⟨{ s with isProcessing := false, images := imgs, progress := ⟨progressEvents, filesCount, s.progress.captionsGenerated⟩, error := some (chars "Image validation failed: " ++ List.intercalate (chars ", ") (validateProcessedImages imgs).2) },
          .error (chars "Image validation failed: " ++
            List.intercalate (chars ", ") (validateProcessedImages imgs).2),
          0, 1 + progressEvents + 1⟩
    | .error e =>
      ⟨{ s with isProcessing := false, error := some e, progress := ⟨progressEvents, filesCount, s.progress.captionsGenerated⟩ },
        .error e, 0, 1 + progressEvents + 1⟩

/-- A story gateway that always succeeds, for concrete instantiations. -/
def gOkConst : StoryRequest → Except ThrownError StoryResponse :=
  fun _ => .ok ⟨[]⟩

/-- A story gateway that always fails, modelling a gateway reply the route
could not parse. -/
def gFailConst : StoryRequest → Except ThrownError StoryResponse :=
  fun _ => .error (.api (chars "Unexpected token N in JSON at position 0"))

/-- A caption gateway that always succeeds. -/
def gcOkConst : List ImageUpload → Except ThrownError (List CaptionResponse) :=
  fun _ => .ok []

/-- A workflow state satisfying all preconditions of generateStory. -/
def sGood : WorkflowState :=
  { initialState with
    images := [⟨1, chars "data:image/jpeg;base64,AA", none⟩],
    captions := [⟨1, chars "a dog on a beach"⟩],
    globalAnswers := ⟨chars "Beach day", chars "calm", []⟩ }

/-- C3: generateStory fails without issuing any story request when the
state has no image, no caption, or an empty purpose or mood; when all four
preconditions hold it issues exactly one story request. -/
theorem generateStory_preconditions (s : WorkflowState)
    (g : StoryRequest → Except ThrownError StoryResponse) :
    ((s.images = [] ∨ s.captions = [] ∨ s.globalAnswers.purpose = [] ∨
        s.globalAnswers.mood = []) →
      (generateStory s g).gatewayCalls = 0 ∧
      (generateStory s g).result ≠ .ok ()) ∧
    ((s.images ≠ [] ∧ s.captions ≠ [] ∧ s.globalAnswers.purpose ≠ [] ∧
        s.globalAnswers.mood ≠ []) →
      (generateStory s g).gatewayCalls = 1) := by
  constructor
  · intro h
    unfold generateStory
    split_ifs with h1 h2 h3
    · exact ⟨rfl, by nofun⟩
    · exact ⟨rfl, by nofun⟩
    · exact ⟨rfl, by nofun⟩
    · exfalso
      simp only [Bool.or_eq_true, List.isEmpty_iff, not_or] at h3
      rcases h with h | h | h | h
      · exact h1 (by rw [h]; rfl)
      · exact h2 (by rw [h]; rfl)
      · exact h3.1 h
      · exact h3.2 h
  · rintro ⟨h1, h2, h3, h4⟩
    unfold generateStory
    split_ifs with k1 k2 k3
    · exact absurd (List.length_eq_zero.mp k1) h1
    · exact absurd (List.length_eq_zero.mp k2) h2
    · simp only [Bool.or_eq_true, List.isEmpty_iff] at k3
      rcases k3 with k | k
      · exact absurd k h3
      · exact absurd k h4
    · rcases hg : g (mkStoryRequest s) with e | st
      · rfl
      · rfl

/-- C3 witness: on the empty initial state the story call count is 0 and
the method fails; on a fully prepared state the count is 1. -/
theorem generateStory_preconditions_witness :
    (generateStory initialState gOkConst).gatewayCalls = 0 ∧
    (generateStory sGood gOkConst).gatewayCalls = 1 :=
  ⟨((generateStory_preconditions initialState gOkConst).1 (Or.inl rfl)).1,
   (generateStory_preconditions sGood gOkConst).2
     ⟨by decide, by decide, by decide, by decide⟩⟩

/-- C4 counterexample: a phase-method exit path on which subscribers are
never notified: generateStory invoked on the empty initial state throws
its precondition error, records nothing into WorkflowState.error, and
performs zero notifications, contradicting the claim that every exit path
notifies subscribers. -/
theorem generateStory_early_exit_no_notify :
    (generateStory initialState gOkConst).result =
      .error (chars "No images for story generation") ∧
    (generateStory initialState gOkConst).notifyCount = 0 ∧
    (generateStory initialState gOkConst).state.error = none :=
  ⟨rfl, rfl, rfl⟩

/-- C4 amended: once a phase method passes its precondition checks and
begins the phase, every exit path — success or failure — ends with the
in-progress flag of the phase false and at least one subscriber
notification; in particular when the story gateway call fails,
generateStory records the human-readable message into WorkflowState.error
and re-raises it.  Precondition-violation exits throw before the phase
starts, leave the state untouched and notify no one. -/
theorem phase_methods_cleanup (s : WorkflowState)
    (gs : StoryRequest → Except ThrownError StoryResponse)
    (gc : List ImageUpload → Except ThrownError (List CaptionResponse))
    (filesCount progressEvents : Nat) (proc : Except Str (List ProcessedImage)) :
    (s.images ≠ [] → s.captions ≠ [] → s.globalAnswers.purpose ≠ [] →
      s.globalAnswers.mood ≠ [] →
      (generateStory s gs).state.isGeneratingStory = false ∧
      0 < (generateStory s gs).notifyCount ∧
      ∀ e, gs (mkStoryRequest s) = .error e →
        (generateStory s gs).state.error = some (storyFailMsg e) ∧
        (generateStory s gs).result = .error (storyFailMsg e)) ∧
    (s.images ≠ [] →
      (generateCaptions s gc).state.isGeneratingCaptions = false ∧
      0 < (generateCaptions s gc).notifyCount) ∧
    (filesCount ≠ 0 → filesCount ≤ 15 →
      (processFiles s filesCount proc progressEvents).state.isProcessing = false ∧
      0 < (processFiles s filesCount proc progressEvents).notifyCount) := by
  refine ⟨?_, ?_, ?_⟩
  · intro h1 h2 h3 h4
    unfold generateStory
    split_ifs with k1 k2 k3
    · exact absurd (List.length_eq_zero.mp k1) h1
    · exact absurd (List.length_eq_zero.mp k2) h2
    · simp only [Bool.or_eq_true, List.isEmpty_iff] at k3
      rcases k3 with k | k
      · exact absurd k h3
      · exact absurd k h4
    · rcases hg : gs (mkStoryRequest s) with e | st
      · refine ⟨rfl, by show (0:Nat) < 2; omega, ?_⟩
        intro e2 he2
        cases he2
        exact ⟨rfl, rfl⟩
      · refine ⟨rfl, by show (0:Nat) < 2; omega, ?_⟩
        intro e2 he2
        cases he2
  · intro h1
    unfold generateCaptions
    split_ifs with k1
    · exact absurd (List.length_eq_zero.mp k1) h1
    · rcases hg : gc (s.images.map fun img => ⟨img.orderIndex, img.base64, img.metadata⟩)
        with e | rs
      · rw [hg]
        exact ⟨rfl, by show (0:Nat) < 2; omega⟩
      · rw [hg]
        exact ⟨rfl, by show (0:Nat) < 2; omega⟩
  · intro h1 h2
    unfold processFiles
    split_ifs with k1 k2
    · exact absurd k1 h1
    · omega
    · rcases proc with e | imgs
      · exact ⟨rfl, by show 0 < 1 + progressEvents + 1; omega⟩
      · by_cases hv : (validateProcessedImages imgs).1 = true
        · simp only [hv, eq_self_iff_true, if_true, ite_true, true_and]
          omega
        · simp [hv]

/-- C4 amended witness: a concrete failing story call ends with the flag
false, the error recorded and re-raised; a concrete caption run and a
concrete file-processing run also end with their flags false. -/
theorem phase_methods_cleanup_witness :
    ((generateStory sGood gFailConst).state.isGeneratingStory = false ∧
      (generateStory sGood gFailConst).state.error =
        some (storyFailMsg (.api (chars "Unexpected token N in JSON at position 0"))) ∧
      (generateStory sGood gFailConst).result =
        .error (storyFailMsg (.api (chars "Unexpected token N in JSON at position 0")))) ∧
    (generateCaptions sGood gcOkConst).state.isGeneratingCaptions = false ∧
    (processFiles initialState 1 (.ok []) 1).state.isProcessing = false := by
  have hs := (phase_methods_cleanup sGood gFailConst gcOkConst 1 1 (.ok [])).1
    (by decide) (by decide) (by decide) (by decide)
  have hc := (phase_methods_cleanup sGood gFailConst gcOkConst 1 1 (.ok [])).2.1
    (by decide)
  have hp := (phase_methods_cleanup initialState gFailConst gcOkConst 1 1 (.ok [])).2.2
    (by decide) (by decide)
  exact ⟨⟨hs.1, (hs.2.2 _ rfl).1, (hs.2.2 _ rfl).2⟩, hc.1, hp.1⟩

/-- C7 counterexample: generateCaptions invoked with zero images is not a
silent no-op: it throws the error "No images to generate captions for". -/
theorem generateCaptions_zero_images_throws :
    (generateCaptions initialState gcOkConst).result =
      .error (chars "No images to generate captions for") := rfl

/-- C7 amended: generateCaptions invoked while the state holds zero images
throws immediately: the state is returned unchanged, no caption request is
issued and no subscriber is notified, but the call raises an error rather
than returning successfully. -/
theorem generateCaptions_zero_images (s : WorkflowState)
    (g : List ImageUpload → Except ThrownError (List CaptionResponse))
    (h : s.images = []) :
    generateCaptions s g =
      ⟨s, .error (chars "No images to generate captions for"), 0, 0⟩ := by
  unfold generateCaptions
  rw [if_pos (by rw [h]; rfl)]

/-- C7 amended witness at the initial state. -/
theorem generateCaptions_zero_images_witness :
    generateCaptions initialState gcOkConst =
      ⟨initialState, .error (chars "No images to generate captions for"), 0, 0⟩ :=
  generateCaptions_zero_images initialState gcOkConst rfl

/-! ## Story response normalizer (src/app/api/atlas/route.ts) -/

/-- The opening-fence regex replace `^`-backtick-backtick-backtick with an
optional case-insensitive `json` tag followed by greedy whitespace: when
the text starts with three backticks, drop them, drop a case-insensitive
`json` tag if present, then drop all following whitespace (the greedy
whitespace class subsumes the optional trailing newline of the pattern);
otherwise the text is unchanged. -/
def stripFencePrefix (s : Str) : Str :=
  if startsWithChars (chars "```") s then
    (if ((s.drop 3).take 4).map Char.toLower == chars "json" then
      (s.drop 3).drop 4
    else s.drop 3).dropWhile isJsWs
  else s

/-- The matched closing-fence suffix minus the three backticks: drop one
preceding newline if present (the optional newline of the pattern). -/
def dropClosingFence (t : Str) : Str :=
  if endsWithChars (chars "\n") (dropRightChars t 3) then
    dropRightChars (dropRightChars t 3) 1
  else dropRightChars t 3

/-- The closing-fence regex replace: an optional newline, three backticks
and trailing whitespace at the end of the text.  The regex matches exactly
when the text minus its trailing whitespace ends in three backticks, and
removes that whole suffix; otherwise the text is unchanged. -/
def stripFenceSuffix (s : Str) : Str :=
  if endsWithChars (chars "```") (dropTrailingWs s) then
    dropClosingFence (dropTrailingWs s)
  else s

/-- `stripMarkdownCodeFences` from src/app/api/atlas/route.ts: the prefix
replace, the suffix replace, then `trim()`. -/
def stripMarkdownCodeFences (text : Str) : Str :=
  trimStr (stripFenceSuffix (stripFencePrefix text))

/-- JSON values, as produced by the runtime `JSON.parse`. -/
inductive Json where
  | null
  | bool (b : Bool)
  | num (n : Int)
  | str (s : Str)
  | arr (elems : List Json)
  | obj (fields : List (Str × Json))

/-- Whitespace characters of the JSON grammar. -/
def isJsonWs (c : Char) : Bool :=
  c = ' ' || c = '\t' || c = '\n' || c = '\r'

/-- Value of one hexadecimal digit. -/
def hexVal (c : Char) : Option Nat :=
  if '0' ≤ c ∧ c ≤ '9' then some (c.toNat - 48)
  else if 'a' ≤ c ∧ c ≤ 'f' then some (c.toNat - 87)
  else if 'A' ≤ c ∧ c ≤ 'F' then some (c.toNat - 55)
  else none

/-- Body of a JSON string literal after the opening quote: the decoded
characters and the remaining input after the closing quote. -/
def parseStringBody : Nat → Str → Option (Str × Str)
  | 0, _ => none
  | _, [] => none
  | fuel+1, c :: rest =>
    if c = '"' then some ([], rest)
    else if c = '\\' then
      match rest with
      | [] => none
      | e :: rest2 =>
        if e = '"' ∨ e = '\\' ∨ e = '/' then
          (parseStringBody fuel rest2).map (fun p => (e :: p.1, p.2))
        else if e = 'b' then
          (parseStringBody fuel rest2).map (fun p => ('\x08' :: p.1, p.2))
        else if e = 'f' then
          (parseStringBody fuel rest2).map (fun p => ('\x0c' :: p.1, p.2))
        else if e = 'n' then
          (parseStringBody fuel rest2).map (fun p => ('\n' :: p.1, p.2))
        else if e = 'r' then
          (parseStringBody fuel rest2).map (fun p => ('\r' :: p.1, p.2))
        else if e = 't' then
          (parseStringBody fuel rest2).map (fun p => ('\t' :: p.1, p.2))
        else if e = 'u' then
          match rest2 with
          | h1 :: h2 :: h3 :: h4 :: rest3 =>
            match hexVal h1, hexVal h2, hexVal h3, hexVal h4 with
            | some a, some b, some c2, some d =>
              (parseStringBody fuel rest3).map
                (fun p => (Char.ofNat (a * 4096 + b * 256 + c2 * 16 + d) :: p.1, p.2))
            | _, _, _, _ => none
          | _ => none
        else none
    else (parseStringBody fuel rest).map (fun p => (c :: p.1, p.2))

/-- Greedy run of decimal digits accumulated into a number. -/
def parseDigitsAux (acc : Nat) : Str → Nat × Str
  | [] => (acc, [])
  | c :: rest =>
    if c.isDigit then parseDigitsAux (acc * 10 + (c.toNat - 48)) rest
    else (acc, c :: rest)

/-- A JSON integer literal with optional leading minus.  The story route
only ever consumes integer `orderIndex` values, so the fractional and
exponent forms of the grammar are not modelled: a digit run followed by
`.`, `e` or `E` fails. -/
def parseIntLit (s : Str) : Option (Int × Str) :=
  let core : Str → Option (Nat × Str) := fun t =>
    match t with
    | c :: rest =>
      if c.isDigit then
        let p := parseDigitsAux (c.toNat - 48) rest
        match p.2 with
        | d :: _ => if d = '.' ∨ d = 'e' ∨ d = 'E' then none else some p
        | [] => some p
      else none
    | [] => none
  match s with
  | '-' :: rest => (core rest).map (fun p => (-(p.1 : Int), p.2))
  | _ => (core s).map (fun p => ((p.1 : Int), p.2))

mutual

/-- Recursive-descent model of the runtime `JSON.parse` on the fragment
the story route exercises (objects, arrays, strings, integers, booleans,
null); `fuel` strictly decreases on every nested call and is chosen large
enough at the entry point. -/
def parseValue : Nat → Str → Option (Json × Str)
  | 0, _ => none
  | fuel+1, s =>
    match s.dropWhile isJsonWs with
    | [] => none
    | c :: rest =>
      if c = '\x7b' then parseMembers fuel (rest.dropWhile isJsonWs) []
      else if c = '[' then parseElements fuel (rest.dropWhile isJsonWs) []
      else if c = '"' then
        (parseStringBody (rest.length + 1) rest).map (fun p => (.str p.1, p.2))
      else if c = 't' then
        if startsWithChars (chars "rue") rest then some (.bool true, rest.drop 3)
        else none
      else if c = 'f' then
        if startsWithChars (chars "alse") rest then some (.bool false, rest.drop 4)
        else none
      else if c = 'n' then
        if startsWithChars (chars "ull") rest then some (.null, rest.drop 3)
        else none
      else (parseIntLit (c :: rest)).map (fun p => (.num p.1, p.2))

/-- Members of a JSON object after the opening brace (leading whitespace
already consumed). -/
def parseMembers : Nat → Str → List (Str × Json) → Option (Json × Str)
  | 0, _, _ => none
  | fuel+1, s, acc =>
    match s with
    | '\x7d' :: rest => some (.obj acc.reverse, rest)
    | '"' :: rest =>
      match parseStringBody (rest.length + 1) rest with
      | none => none
      | some (key, rest1) =>
        match rest1.dropWhile isJsonWs with
        | ':' :: rest2 =>
          match parseValue fuel rest2 with
          | none => none
          | some (v, rest3) =>
            match rest3.dropWhile isJsonWs with
            | ',' :: rest4 =>
              parseMembers fuel (rest4.dropWhile isJsonWs) ((key, v) :: acc)
            | '\x7d' :: rest4 => some (.obj ((key, v) :: acc).reverse, rest4)
            | _ => none
        | _ => none
    | _ => none

/-- Elements of a JSON array after the opening bracket (leading whitespace
already consumed). -/
def parseElements : Nat → Str → List Json → Option (Json × Str)
  | 0, _, _ => none
  | fuel+1, s, acc =>
    match s with
    | ']' :: rest => some (.arr acc.reverse, rest)
    | _ =>
      match parseValue fuel s with
      | none => none
      | some (v, rest1) =>
        match rest1.dropWhile isJsonWs with
        | ',' :: rest2 => parseElements fuel (rest2.dropWhile isJsonWs) (v :: acc)
        | ']' :: rest2 => some (.arr (v :: acc).reverse, rest2)
        | _ => none

end

/-- `JSON.parse` model: parse one value and require only whitespace to
remain. -/
def parseJson (s : Str) : Option Json :=
  match parseValue (s.length + 1) s with
  | some (j, rest) => if (rest.dropWhile isJsonWs).isEmpty then some j else none
  | none => none

/-- Member access `json.pages` on a parsed value: the member when the
value is an object carrying it, otherwise `undefined` (`none`). -/
def jsonGetField (j : Json) (key : Str) : Option Json :=
  match j with
  | .obj fields => (fields.find? (fun kv => kv.1 == key)).map Prod.snd
  | _ => none

/-- The story route normalization (`POST` in src/app/api/atlas/route.ts):
strip markdown fences, `JSON.parse` the remainder, and take the `pages`
member verbatim.  `none` is the parse-failure path, surfaced by the route
as its 502 error response. -/
def storyRouteNormalize (raw : Str) : Option (Option Json) :=
  match parseJson (stripMarkdownCodeFences raw) with
  | none => none
  | some j => some (jsonGetField j (chars "pages"))

/-- Helper: dropping while a predicate fails on the head keeps the list. -/
theorem dropWhile_cons_false {p : Char → Bool} {a : Char} {l : Str}
    (h : p a = false) : (a :: l).dropWhile p = a :: l := by
  simp [List.dropWhile_cons, h]

/-- C5: the normalizer round-trips the fenced reply — the fence is
stripped to the exact JSON text, parsing succeeds, and the `pages` member
is the one-page list with `orderIndex` 1 and `narrativeText` `x`; and any
reply that already starts with an opening brace and ends with a closing
brace is left unchanged by the stripping step. -/
theorem story_normalizer_round_trip :
    stripMarkdownCodeFences
        (chars "```json\n\x7b\"pages\":[\x7b\"orderIndex\":1,\"narrativeText\":\"x\"\x7d]\x7d\n```") =
      chars "\x7b\"pages\":[\x7b\"orderIndex\":1,\"narrativeText\":\"x\"\x7d]\x7d" ∧
    storyRouteNormalize
        (chars "```json\n\x7b\"pages\":[\x7b\"orderIndex\":1,\"narrativeText\":\"x\"\x7d]\x7d\n```") =
      some (some (Json.arr [Json.obj
        [(chars "orderIndex", Json.num 1),
         (chars "narrativeText", Json.str (chars "x"))]])) ∧
    (∀ s : Str, s.head? = some '\x7b' → s.getLast? = some '\x7d' →
      stripMarkdownCodeFences s = s) := by
  refine ⟨by decide, by rfl, ?_⟩
  intro s hhead hlast
  obtain ⟨t, hs⟩ : ∃ t, s = '\x7b' :: t := by
    cases s with
    | nil => cases hhead
    | cons a t =>
      simp only [List.head?] at hhead
      exact ⟨t, by rw [Option.some_inj.mp hhead]⟩
  obtain ⟨r, hrev⟩ : ∃ r, s.reverse = '\x7d' :: r := by
    have h2 : s.reverse.head? = some '\x7d' := by
      rw [List.head?_reverse]; exact hlast
    cases hR : s.reverse with
    | nil => rw [hR] at h2; cases h2
    | cons a r =>
      rw [hR] at h2
      simp only [List.head?] at h2
      exact ⟨r, by rw [Option.some_inj.mp h2]⟩
  have hcond : startsWithChars (chars "```") s = false := by rw [hs]; rfl
  have hpre : stripFencePrefix s = s := by
    unfold stripFencePrefix
    rw [hcond]
    simp
  have hdrop : dropTrailingWs s = s := by
    unfold dropTrailingWs
    rw [hrev, dropWhile_cons_false (show isJsWs '\x7d' = false from rfl),
      ← hrev, List.reverse_reverse]
  have hends : endsWithChars (chars "```") s = false := by
    unfold endsWithChars
    rw [hrev]
    rfl
  have hsuf : stripFenceSuffix s = s := by
    unfold stripFenceSuffix
    rw [hdrop, hends]
    simp
  have htrim : trimStr s = s := by
    unfold trimStr
    rw [hs, dropWhile_cons_false (show isJsWs '\x7b' = false from rfl), ← hs,
      hrev, dropWhile_cons_false (show isJsWs '\x7d' = false from rfl),
      ← hrev, List.reverse_reverse]
  show trimStr (stripFenceSuffix (stripFencePrefix s)) = s
  rw [hpre, hsuf, htrim]

/-- C5 witness: the general unchanged-reply part applied to the exact
unfenced page JSON. -/
theorem story_normalizer_round_trip_witness :
    stripMarkdownCodeFences
        (chars "\x7b\"pages\":[\x7b\"orderIndex\":1,\"narrativeText\":\"x\"\x7d]\x7d") =
      chars "\x7b\"pages\":[\x7b\"orderIndex\":1,\"narrativeText\":\"x\"\x7d]\x7d" :=
  story_normalizer_round_trip.2.2
    (chars "\x7b\"pages\":[\x7b\"orderIndex\":1,\"narrativeText\":\"x\"\x7d]\x7d")
    (by decide) (by decide)

/-! ## Caption response normalizer (src/app/api/caption/route.ts) -/

/-- An axios failure as the caption route's catch block reads it: the
optional upstream HTTP status and the error message. -/
structure AxiosFailure where
  statusCode : Option Int
  message : Str
  deriving DecidableEq, Repr

/-- The observable outcome of the caption route handler. -/
inductive CaptionRouteResult where
  | success (orderIndex : Int) (caption : Str)
  | failure (statusCode : Int) (message : Str)
  deriving DecidableEq, Repr

/-- The caption route normalization (`POST` in src/app/api/caption/route.ts):
on gateway success the raw model text is trimmed and returned as a 200
response whatever it is; on gateway failure the route answers with the
upstream status when present, else 502. -/
def captionRoutePost (orderIndex : Int) (gateway : Except AxiosFailure Str) :
    CaptionRouteResult :=
  match gateway with
  | .ok raw => .success orderIndex (trimStr raw)
  | .error e => .failure (e.statusCode.getD 502) e.message

/-- Helper: the head of a `dropWhile` residue falsifies the predicate. -/
theorem head?_dropWhile_false (p : Char → Bool) :
    ∀ (l : Str) (c : Char), (l.dropWhile p).head? = some c → p c = false := by
  intro l
  induction l with
  | nil => intro c h; cases h
  | cons a l ih =>
    intro c h
    rw [List.dropWhile_cons] at h
    by_cases hp : p a = true
    · rw [if_pos hp] at h
      exact ih c h
    · rw [if_neg hp] at h
      simp only [List.head?] at h
      rw [← Option.some_inj.mp h]
      cases hpa : p a
      · rfl
      · exact absurd hpa hp

/-- Helper: a non-empty `dropWhile` residue keeps the last element. -/
theorem getLast?_dropWhile_ne (p : Char → Bool) :
    ∀ (l : Str), l.dropWhile p ≠ [] → (l.dropWhile p).getLast? = l.getLast? := by
  intro l
  induction l with
  | nil => intro h; exact absurd rfl h
  | cons a l ih =>
    intro h
    rw [List.dropWhile_cons] at h ⊢
    by_cases hp : p a = true
    · rw [if_pos hp] at h ⊢
      rw [ih h]
      cases l with
      | nil => exact absurd rfl h
      | cons b l2 => rw [List.getLast?_cons_cons]
    · rw [if_neg hp]

/-- C6 counterexample: a gateway reply that trims to the empty string is
returned by the caption route as a 200 success carrying an empty caption,
not rejected as a gateway error. -/
theorem captionRoute_empty_caption_success :
    captionRoutePost 7 (.ok (chars "  \n ")) =
      .success 7 [] ∧ trimStr (chars "  \n ") = [] := by
  decide

/-- C6 amended: the caption path trims leading and trailing whitespace
from the raw model text (the returned caption starts and ends with
non-whitespace characters when non-empty) and returns the result as a
success even when it is empty; only a gateway failure produces the
502-class error, carrying the upstream status when present. -/
theorem captionRoute_trims (oi : Int) (raw : Str) (e : AxiosFailure) :
    captionRoutePost oi (.ok raw) = .success oi (trimStr raw) ∧
    (∀ c, (trimStr raw).head? = some c → isJsWs c = false) ∧
    (∀ c, (trimStr raw).getLast? = some c → isJsWs c = false) ∧
    captionRoutePost oi (.error e) = .failure (e.statusCode.getD 502) e.message := by
  refine ⟨rfl, ?_, ?_, rfl⟩
  · intro c h
    unfold trimStr at h
    rw [List.head?_reverse] at h
    have hne : (raw.dropWhile isJsWs).reverse.dropWhile isJsWs ≠ [] := by
      intro hnil
      rw [hnil] at h
      cases h
    rw [getLast?_dropWhile_ne isJsWs _ hne, List.getLast?_reverse] at h
    exact head?_dropWhile_false isJsWs raw c h
  · intro c h
    unfold trimStr at h
    rw [List.getLast?_reverse] at h
    exact head?_dropWhile_false isJsWs _ c h

/-- C6 amended witness at a concrete trimmed reply and a concrete gateway
failure without upstream status. -/
theorem captionRoute_trims_witness :
    captionRoutePost 3 (.ok (chars " hi ")) = .success 3 (chars "hi") ∧
    captionRoutePost 3 (.error ⟨none, chars "boom"⟩) =
      .failure 502 (chars "boom") :=
  ⟨((captionRoute_trims 3 (chars " hi ") ⟨none, chars "boom"⟩).1).trans (by decide),
   ((captionRoute_trims 3 (chars " hi ") ⟨none, chars "boom"⟩).2.2.2).trans (by decide)⟩

/-! ## Metadata clause shape (C8) -/

/-- Specification-side description of the per-photo metadata clause, in
the amended wording of C8: one clause per truthy field, in the fixed order
date, coordinates, device — the date clause when `takenAt` is present and
non-empty, the coordinate clause when both `latitude` and `longitude` are
present and non-zero (JavaScript truthiness), the device clause when
`device` is present and non-empty. -/
def metadataClausesSpec (fmtDate : Str → Str) (m : ImageMetadata) : List Str :=
  (match m.takenAt with
    | some t => if t.isEmpty then [] else [chars "taken " ++ fmtDate t]
    | none => []) ++
  (match m.latitude, m.longitude with
    | some la, some lo =>
      if la = 0 ∨ lo = 0 then [] else
        [chars "at coordinates " ++ toFixed4 la ++ chars ", " ++ toFixed4 lo]
    | _, _ => []) ++
  (match m.device with
    | some d => if d.isEmpty then [] else [chars "captured with " ++ d]
    | none => [])

/-- Specification-side metadata clause: the present clauses joined with a
comma inside one pair of parentheses, the empty string when the metadata
is absent or no clause is present (so empty parentheses never appear). -/
def metadataClauseSpec (fmtDate : Str → Str) : Option ImageMetadata → Str
  | none => []
  | some m =>
    match metadataClausesSpec fmtDate m with
    | [] => []
    | cs => chars " (" ++ List.intercalate (chars ", ") cs ++ chars ")"

/-- C8 counterexample: metadata with both coordinates present, but with
latitude 0, renders no coordinate clause at all (the source tests the
numbers with JavaScript truthiness, so a 0 coordinate counts as absent),
contradicting the claim that the coordinate pair appears exactly when both
coordinates are present. -/
theorem metadata_clause_latitude_zero :
    buildMetadataContext fmtDateId (some ⟨none, some 0, some 10, none⟩) = [] ∧
    (ImageMetadata.mk none (some 0) (some 10) none).latitude.isSome = true ∧
    (ImageMetadata.mk none (some 0) (some 10) none).longitude.isSome = true := by
  decide

/-- C8 amended: the per-photo metadata clause is exactly the comma-joined
parenthesised list of the truthy clauses — date when `takenAt` is present
and non-empty, coordinates when both `latitude` and `longitude` are
present and non-zero, device when present and non-empty — and the empty
string when the metadata is absent or no clause is truthy, so empty
parentheses never appear. -/
theorem buildMetadataContext_eq_spec (fmtDate : Str → Str)
    (metadata : Option ImageMetadata) :
    buildMetadataContext fmtDate metadata = metadataClauseSpec fmtDate metadata := by
  cases metadata with
  | none => rfl
  | some m =>
    rcases m with ⟨ta, la, lo, de⟩
    have hparts : metadataParts fmtDate ⟨ta, la, lo, de⟩ =
        metadataClausesSpec fmtDate ⟨ta, la, lo, de⟩ := by
      unfold metadataParts metadataClausesSpec
      cases ta <;> cases la <;> cases lo <;> cases de <;>
        simp [strTruthy, numTruthy] <;> split_ifs <;> simp_all
    show buildMetadataContext fmtDate (some ⟨ta, la, lo, de⟩) =
      metadataClauseSpec fmtDate (some ⟨ta, la, lo, de⟩)
    simp only [buildMetadataContext, metadataClauseSpec]
    rw [hparts]
    cases hcl : metadataClausesSpec fmtDate ⟨ta, la, lo, de⟩ with
    | nil => simp
    | cons c cs => simp

/-- C8 witness: the amended description evaluated at metadata carrying
only a device string. -/
theorem buildMetadataContext_eq_spec_witness :
    buildMetadataContext fmtDateId (some ⟨none, none, none, some (chars "iPhone 12")⟩) =
      metadataClauseSpec fmtDateId (some ⟨none, none, none, some (chars "iPhone 12")⟩) :=
  buildMetadataContext_eq_spec fmtDateId (some ⟨none, none, none, some (chars "iPhone 12")⟩)

/-! ## Caption lookup tolerance (C9) -/

/-- Helper: filtering by a predicate implied by the search predicate does
not change the result of `find?`. -/
theorem find?_filter_of_imp {α : Type} (l : List α) (p q : α → Bool)
    (h : ∀ a, p a = true → q a = true) :
    (l.filter q).find? p = l.find? p := by
  induction l with
  | nil => rfl
  | cons a l ih =>
    rw [List.filter_cons]
    by_cases hq : q a = true
    · rw [if_pos hq, List.find?_cons, List.find?_cons]
      cases hp : p a
      · exact ih
      · rfl
    · have hp : p a = false := by
        cases hpa : p a
        · rfl
        · exact absurd (h a hpa) hq
      rw [if_neg hq, ih, List.find?_cons, hp]

/-- C9: a photo whose `orderIndex` matches no caption context renders with
the empty caption (the block is the fixed text around an empty caption
slot, with no error possible — the builder is total), and contexts whose
`orderIndex` matches no image are silently ignored: removing all unmatched
contexts leaves the whole story prompt unchanged. -/
theorem buildStoryPrompt_caption_tolerance (fmtDate : Str → Str)
    (images : List ImageUpload) (contexts : List ValidatedCaption)
    (ga : List (Str × Str)) :
    (∀ img ∈ images, (∀ c ∈ contexts, c.orderIndex ≠ img.orderIndex) →
      renderPhoto fmtDate contexts img =
        chars "Photo " ++ intToChars img.orderIndex ++ chars ": " ++
          buildMetadataContext fmtDate img.metadata ++ chars "\n<image>" ++
          img.base64 ++ chars "</image>") ∧
    buildStoryPrompt fmtDate images
        (contexts.filter (fun c => images.any (fun i => i.orderIndex == c.orderIndex))) ga =
      buildStoryPrompt fmtDate images contexts ga := by
  constructor
  · intro img _hmem hnone
    have hfind : contexts.find? (fun c => c.orderIndex == img.orderIndex) = none := by
      rw [List.find?_eq_none]
      intro c hc
      simp only [beq_iff_eq]
      exact hnone c hc
    unfold renderPhoto
    rw [hfind]
    simp
  · unfold buildStoryPrompt
    have hmap : images.map (renderPhoto fmtDate
        (contexts.filter (fun c => images.any (fun i => i.orderIndex == c.orderIndex)))) =
        images.map (renderPhoto fmtDate contexts) := by
      refine List.map_congr_left (fun img hmem => ?_)
      unfold renderPhoto
      rw [find?_filter_of_imp contexts
        (fun c => c.orderIndex == img.orderIndex)
        (fun c => images.any (fun i => i.orderIndex == c.orderIndex))
        (fun c hc => ?_)]
      rw [List.any_eq_true]
      refine ⟨img, hmem, ?_⟩
      rw [beq_iff_eq] at hc ⊢
      exact hc.symm
    rw [hmap]

/-- C9 witness: a photo with no matching context renders with the empty
caption slot, at a concrete image and context list. -/
theorem buildStoryPrompt_caption_tolerance_witness :
    renderPhoto fmtDateId [⟨5, chars "unmatched"⟩] imgA =
      chars "Photo " ++ intToChars imgA.orderIndex ++ chars ": " ++
        buildMetadataContext fmtDateId imgA.metadata ++ chars "\n<image>" ++
        imgA.base64 ++ chars "</image>" :=
  (buildStoryPrompt_caption_tolerance fmtDateId [imgA] [⟨5, chars "unmatched"⟩] []).1
    imgA (by simp) (by intro c hc; simp at hc; rw [hc]; decide)

end Atlas
